import Mathlib

/-!
Shallow embedding of the Task-Manager server (Node/Express/Mongoose) core:
the ownership-scoped task/tag resource layer (`Controller/taskController.js`,
`Controller/tagController.js`), the task and tag schemas (`Models/task.js`,
`Models/Tag.js`), the auth middleware with its token blacklist and rate
limiter (`Middleware/authMiddleware.js`), and the auth controller
(`Controller/authController.js`).

Conventions of the embedding:
* Mongo documents are Lean structures; a collection is a `List` of documents.
* Times (`Date.now()`, stored dates) are epoch milliseconds as `Int`.
* Mongoose query-middleware effects are folded into each operation exactly as
  they fire in the source: the `pre(/^find/)` hooks on the task and tag
  schemas add `isDeleted: { $ne: true }` to every `find`/`findOne`/
  `findByIdAndUpdate` filter, but not to `updateMany`/`countDocuments`
  (their method names do not match `/^find/`).
* `findByIdAndUpdate` and `updateMany` apply field updates without running
  the `pre('save')` document middleware, as in Mongoose.
* A case-insensitive, unanchored `$regex` filter on literal search text is
  modelled as case-insensitive substring containment.
-/

namespace TaskManager

/-- Task `status` enum from `Models/task.js` (`pending`, `in-progress`,
`completed`, `cancelled`). -/
inductive Status where
  | pending
  | inProgress
  | completed
  | cancelled
deriving DecidableEq

/-- Task `priority` enum from `Models/task.js` (`low`, `medium`, `high`,
`critical`). -/
inductive Priority where
  | low
  | medium
  | high
  | critical
deriving DecidableEq

/-- The stored string for a `Status` value, used when Mongo sorts on the
`status` field (strings sort lexicographically). -/
def statusStr : Status → String
  | .pending => "pending"
  | .inProgress => "in-progress"
  | .completed => "completed"
  | .cancelled => "cancelled"

/-- The stored string for a `Priority` value. -/
def priorityStr : Priority → String
  | .low => "low"
  | .medium => "medium"
  | .high => "high"
  | .critical => "critical"

/-- Task document, from the `taskSchema` in `Models/task.js`.  `createdAt` and
`updatedAt` come from `timestamps: true`. -/
structure Task where
  id : Nat
  title : String
  description : String
  status : Status
  priority : Priority
  dueDate : Option Int
  tags : List String
  isCompleted : Bool
  completedAt : Option Int
  user : Nat
  isDeleted : Bool
  deletedAt : Option Int
  createdAt : Int
  updatedAt : Int
deriving DecidableEq

/-- Tag document, from the `tagSchema` in `Models/Tag.js`. -/
structure Tag where
  id : Nat
  name : String
  color : String
  description : String
  user : Nat
  isDeleted : Bool
  deletedAt : Option Int
  usageCount : Nat
  createdAt : Int
  updatedAt : Int
deriving DecidableEq

/-- Containment of one character list in another. -/
def isInfixOfCh (needle : List Char) : List Char → Bool
  | [] => needle.isEmpty
  | c :: rest => needle.isPrefixOf (c :: rest) || isInfixOfCh needle rest

/-- Case-insensitive substring test: the model of a `$regex` filter with
`$options: 'i'` on literal search text. -/
def iContains (hay pat : String) : Bool :=
  isInfixOfCh pat.toLower.toList hay.toLower.toList

/-- Insertion into a list sorted by a boolean comparator. -/
def insertLe {α : Type} (le : α → α → Bool) (a : α) : List α → List α
  | [] => [a]
  | b :: rest => if le a b then a :: b :: rest else b :: insertLe le a rest

/-- Insertion sort by a boolean comparator: the model of Mongo's `.sort()`
(only the permutation property matters to the claims). -/
def sortByLe {α : Type} (le : α → α → Bool) : List α → List α
  | [] => []
  | a :: rest => insertLe le a (sortByLe le rest)

theorem insertLe_perm {α : Type} (le : α → α → Bool) (a : α) (l : List α) :
    (insertLe le a l).Perm (a :: l) := by
  induction l with
  | nil => simp [insertLe]
  | cons b rest ih =>
      simp only [insertLe]
      by_cases h : le a b = true
      · simp [h]
      · simp only [h, if_false]
        exact (List.Perm.cons b ih).trans (List.Perm.swap a b rest)

theorem sortByLe_perm {α : Type} (le : α → α → Bool) (l : List α) :
    (sortByLe le l).Perm l := by
  induction l with
  | nil => simp [sortByLe]
  | cons a rest ih =>
      exact ((insertLe_perm le a (sortByLe le rest)).trans (List.Perm.cons a ih))

/-- Sort keys produced by `sortObj[sortBy]`: a Mongo field value is an
integer (dates), a string, or absent (`null`). -/
inductive SortVal where
  | vNull
  | vInt (i : Int)
  | vStr (s : String)
deriving DecidableEq

/-- A total comparison on `SortVal` standing in for Mongo's BSON ordering
(null < numbers < strings). -/
def sortValLe : SortVal → SortVal → Bool
  | .vNull, _ => true
  | .vInt _, .vNull => false
  | .vInt i, .vInt j => i ≤ j
  | .vInt _, .vStr _ => true
  | .vStr _, .vNull => false
  | .vStr _, .vInt _ => false
  | .vStr a, .vStr b => a ≤ b

/-- The `sortBy` values accepted by `validateTaskQuery` in
`Utils/validation.js`. -/
inductive TaskSortField where
  | createdAt
  | updatedAt
  | dueDate
  | priority
  | status
  | title
deriving DecidableEq

/-- The Mongo value of a task's field named by `sortBy`. -/
def taskSortVal (f : TaskSortField) (t : Task) : SortVal :=
  match f with
  | .createdAt => .vInt t.createdAt
  | .updatedAt => .vInt t.updatedAt
  | .dueDate =>
      match t.dueDate with
      | none => .vNull
      | some d => .vInt d
  | .priority => .vStr (priorityStr t.priority)
  | .status => .vStr (statusStr t.status)
  | .title => .vStr t.title

/-- `asc` / `desc` from the query string; the controller maps `asc` to `1`
and anything else to `-1`. -/
inductive SortOrder where
  | asc
  | desc
deriving DecidableEq

/-- Comparator realising `.sort(sortObj)` for tasks. -/
def taskLe (f : TaskSortField) (ord : SortOrder) (a b : Task) : Bool :=
  match ord with
  | .asc => sortValLe (taskSortVal f a) (taskSortVal f b)
  | .desc => sortValLe (taskSortVal f b) (taskSortVal f a)

/-- Validated query parameters of `GET /api/tasks` (`getTasks` in
`Controller/taskController.js`), with the controller's defaults.  `tags`
holds the result of `tags.split(',')`; `overdue` is whether the query string
had `overdue === 'true'`. -/
structure TaskQuery where
  status : Option Status := none
  priority : Option Priority := none
  page : Nat := 1
  limit : Nat := 10
  sortBy : TaskSortField := .createdAt
  sortOrder : SortOrder := .desc
  search : Option String := none
  tags : Option (List String) := none
  overdue : Bool := false

/-- The filter object built by `getTasks`: always `{ user: req.user.id }`,
then optional `status`, `priority`, `tags: { $in: ... }`, the `$or` search
regexes, and the overdue clause; the task schema's `pre(/^find/)` hook
conjoins `isDeleted: { $ne: true }`. -/
def matchesTaskFilter (uid : Nat) (now : Int) (q : TaskQuery) (t : Task) : Bool :=
  t.user == uid
    && (match q.status with
        | none => true
        | some s => t.status == s)
    && (match q.priority with
        | none => true
        | some p => t.priority == p)
    && (match q.tags with
        | none => true
        | some ts => t.tags.any (fun x => ts.contains x))
    && (match q.search with
        | none => true
        | some s => iContains t.title s || iContains t.description s)
    && (if q.overdue then
          (match t.dueDate with
           | none => false
           | some d => d < now) && t.isCompleted == false
        else true)
    && !t.isDeleted

/-- `getTasks`: `Task.find(filter).sort(sortObj).skip(skip).limit(limit)` with
`skip = (page - 1) * limit`. -/
def getTasks (uid : Nat) (now : Int) (q : TaskQuery) (db : List Task) : List Task :=
  ((sortByLe (taskLe q.sortBy q.sortOrder)
      (db.filter (matchesTaskFilter uid now q))).drop
    ((q.page - 1) * q.limit)).take q.limit

/-- Query parameters of `GET /api/tags` (`getTags` in
`Controller/tagController.js`), with its defaults.  `sortBy` is an arbitrary
string there (no validation), so it stays a `String` here. -/
structure TagQuery where
  page : Nat := 1
  limit : Nat := 50
  sortBy : String := "createdAt"
  sortOrder : SortOrder := .desc
  search : Option String := none

/-- The Mongo value of a tag's field named by the free-form `sortBy` string;
an unknown field name reads as `null`. -/
def tagSortVal (f : String) (g : Tag) : SortVal :=
  if f == "createdAt" then .vInt g.createdAt
  else if f == "updatedAt" then .vInt g.updatedAt
  else if f == "name" then .vStr g.name
  else if f == "usageCount" then .vInt g.usageCount
  else if f == "color" then .vStr g.color
  else .vNull

/-- Comparator realising `.sort(sortObj)` for tags. -/
def tagLe (f : String) (ord : SortOrder) (a b : Tag) : Bool :=
  match ord with
  | .asc => sortValLe (tagSortVal f a) (tagSortVal f b)
  | .desc => sortValLe (tagSortVal f b) (tagSortVal f a)

/-- The filter object built by `getTags`: `{ user: req.user.id }` plus the
optional `$or` search, with the tag schema's `pre(/^find/)` soft-delete
hook. -/
def matchesTagFilter (uid : Nat) (q : TagQuery) (g : Tag) : Bool :=
  g.user == uid
    && (match q.search with
        | none => true
        | some s => iContains g.name s || iContains g.description s)
    && !g.isDeleted

/-- `getTags`: `Tag.find(filter).sort(sortObj).skip(skip).limit(limit)`. -/
def getTags (uid : Nat) (q : TagQuery) (db : List Tag) : List Tag :=
  ((sortByLe (tagLe q.sortBy q.sortOrder)
      (db.filter (matchesTagFilter uid q))).drop
    ((q.page - 1) * q.limit)).take q.limit

/-- C1: for every list operation (`getTasks`, `getTags`) on behalf of an
authenticated identity and every combination of filter, search, overdue,
sort and pagination parameters, no task or tag whose owner differs from that
identity appears in the returned results, because `user: req.user.id` is
always part of the query filter. -/
theorem getTasks_getTags_owner_scoped :
    (∀ (uid : Nat) (now : Int) (q : TaskQuery) (db : List Task) (t : Task),
        t ∈ getTasks uid now q db → t.user = uid)
    ∧ (∀ (uid : Nat) (q : TagQuery) (db : List Tag) (g : Tag),
        g ∈ getTags uid q db → g.user = uid) := by
  constructor
  · intro uid now q db t ht
    have h1 := List.mem_of_mem_drop (List.mem_of_mem_take ht)
    have h2 : t ∈ db.filter (matchesTaskFilter uid now q) :=
      (sortByLe_perm (taskLe q.sortBy q.sortOrder)
        (db.filter (matchesTaskFilter uid now q))).mem_iff.mp h1
    have h3 : matchesTaskFilter uid now q t = true := List.of_mem_filter h2
    have h4 : (t.user == uid) = true := by
      simp only [matchesTaskFilter, Bool.and_eq_true] at h3
      exact h3.1.1.1.1.1.1
    exact eq_of_beq h4
  · intro uid q db g hg
    have h1 := List.mem_of_mem_drop (List.mem_of_mem_take hg)
    have h2 : g ∈ db.filter (matchesTagFilter uid q) :=
      (sortByLe_perm (tagLe q.sortBy q.sortOrder)
        (db.filter (matchesTagFilter uid q))).mem_iff.mp h1
    have h3 : matchesTagFilter uid q g = true := List.of_mem_filter h2
    have h4 : (g.user == uid) = true := by
      simp only [matchesTagFilter, Bool.and_eq_true] at h3
      exact h3.1.1
    exact eq_of_beq h4

/-- A concrete task owned by identity 7, used to instantiate the theorems. -/
def sampleTask : Task :=
  { id := 1, title := "write report", description := "", status := .pending,
    priority := .medium, dueDate := none, tags := ["work"],
    isCompleted := false, completedAt := none, user := 7, isDeleted := false,
    deletedAt := none, createdAt := 0, updatedAt := 0 }

/-- A concrete tag owned by identity 7. -/
def sampleTag : Tag :=
  { id := 1, name := "work", color := "#007bff", description := "",
    user := 7, isDeleted := false, deletedAt := none, usageCount := 0,
    createdAt := 0, updatedAt := 0 }

/-- Witness for C1: the default task and tag list queries by identity 7 over
singleton stores return the owner's documents, whose owner field is 7. -/
theorem getTasks_getTags_owner_scoped_witness :
    (sampleTask ∈ getTasks 7 0 {} [sampleTask] ∧ sampleTask.user = 7)
    ∧ (sampleTag ∈ getTags 7 {} [sampleTag] ∧ sampleTag.user = 7) :=
  ⟨⟨by decide, getTasks_getTags_owner_scoped.1 7 0 {} [sampleTask] sampleTask (by decide)⟩,
   ⟨by decide, getTasks_getTags_owner_scoped.2 7 {} [sampleTag] sampleTag (by decide)⟩⟩

/-- Shape of a single-task endpoint response: HTTP status, `success`,
`message`, and the task payload (when present). -/
structure TaskResponse where
  status : Nat
  success : Bool
  message : String
  task : Option Task
deriving DecidableEq

/-- The 404 body produced by `getTask` / `updateTask` / `deleteTask` when
`findOne({ _id, user })` comes back empty. -/
def taskNotFound : TaskResponse :=
  { status := 404, success := false, message := "Task not found", task := none }

/-- The predicate of `getTask`'s single `findOne({ _id: req.params.id, user:
req.user.id })` call; the schema's `pre(/^find/)` hook conjoins
`isDeleted: { $ne: true }`.  Ownership is part of the one existence check,
not a separate comparison after a fetch. -/
def taskOwnedPred (uid idq : Nat) (t : Task) : Bool :=
  t.id == idq && t.user == uid && !t.isDeleted

/-- `getTask` from `Controller/taskController.js`. -/
def getTask (uid idq : Nat) (db : List Task) : TaskResponse :=
  match db.find? (taskOwnedPred uid idq) with
  | some t =>
      { status := 200, success := true, message := "Task retrieved successfully",
        task := some t }
  | none => taskNotFound

/-- The `verifyTaskOwnership` middleware of `Middleware/authMiddleware.js`:
one `Task.exists({ _id, user, isDeleted: { $ne: true } })` call; when it
comes back empty the request stops with the single 404 "Task not found or
access denied" body, otherwise the request proceeds (`none`). -/
def verifyTaskOwnership (uid idq : Nat) (db : List Task) : Option TaskResponse :=
  if db.any (taskOwnedPred uid idq) then none
  else some { status := 404, success := false,
              message := "Task not found or access denied", task := none }

/-- C2: fetching a task by id on behalf of identity `uidA` produces exactly
the same response (status 404, message "Task not found", same body shape)
whether the id belongs to an existing task of a different owner or to no
task at all; the `verifyTaskOwnership` middleware behaves the same way with
its single 404 body.  Both checks are one existence query whose predicate
conjoins id and ownership — `taskOwnedPred` — not a fetch followed by an
ownership comparison. -/
theorem getTask_cross_owner_same_as_missing :
    ∀ (db1 db2 : List Task) (idq uidA : Nat),
      (∃ t ∈ db1, t.id = idq ∧ t.user ≠ uidA) →
      (∀ t ∈ db1, t.id = idq → t.user ≠ uidA) →
      (∀ t ∈ db2, t.id ≠ idq) →
      getTask uidA idq db1 = getTask uidA idq db2
      ∧ getTask uidA idq db1 = taskNotFound
      ∧ verifyTaskOwnership uidA idq db1 = verifyTaskOwnership uidA idq db2
      ∧ verifyTaskOwnership uidA idq db1
          = some { status := 404, success := false,
                   message := "Task not found or access denied", task := none } := by
  intro db1 db2 idq uidA _hex hall1 hall2
  have hp1 : ∀ t ∈ db1, ¬ taskOwnedPred uidA idq t = true := by
    intro t ht hp
    simp only [taskOwnedPred, Bool.and_eq_true, beq_iff_eq] at hp
    exact hall1 t ht hp.1.1 hp.1.2
  have hp2 : ∀ t ∈ db2, ¬ taskOwnedPred uidA idq t = true := by
    intro t ht hp
    simp only [taskOwnedPred, Bool.and_eq_true, beq_iff_eq] at hp
    exact hall2 t ht hp.1.1
  have h1 : db1.find? (taskOwnedPred uidA idq) = none :=
    List.find?_eq_none.mpr hp1
  have h2 : db2.find? (taskOwnedPred uidA idq) = none :=
    List.find?_eq_none.mpr hp2
  have ha1 : db1.any (taskOwnedPred uidA idq) = false := by
    rw [Bool.eq_false_iff]
    intro hc
    rcases List.any_eq_true.mp hc with ⟨t, ht, hp⟩
    exact hp1 t ht hp
  have ha2 : db2.any (taskOwnedPred uidA idq) = false := by
    rw [Bool.eq_false_iff]
    intro hc
    rcases List.any_eq_true.mp hc with ⟨t, ht, hp⟩
    exact hp2 t ht hp
  refine ⟨?_, ?_, ?_, ?_⟩
  · simp [getTask, h1, h2]
  · simp [getTask, h1]
  · simp [verifyTaskOwnership, ha1, ha2]
  · simp [verifyTaskOwnership, ha1]

/-- A task with id 5 owned by identity 9, a stranger to identity 7. -/
def strangerTask : Task :=
  { sampleTask with id := 5, user := 9 }

/-- Witness for C2: identity 7 requesting id 5 gets the same `taskNotFound`
response over a store holding only identity 9's task 5 as over the empty
store. -/
theorem getTask_cross_owner_same_as_missing_witness :
    getTask 7 5 [strangerTask] = getTask 7 5 []
    ∧ getTask 7 5 [strangerTask] = taskNotFound
    ∧ verifyTaskOwnership 7 5 [strangerTask] = verifyTaskOwnership 7 5 [] :=
  ⟨(getTask_cross_owner_same_as_missing [strangerTask] [] 5 7
      ⟨strangerTask, by decide, by decide, by decide⟩ (by decide) (by decide)).1,
   (getTask_cross_owner_same_as_missing [strangerTask] [] 5 7
      ⟨strangerTask, by decide, by decide, by decide⟩ (by decide) (by decide)).2.1,
   (getTask_cross_owner_same_as_missing [strangerTask] [] 5 7
      ⟨strangerTask, by decide, by decide, by decide⟩ (by decide) (by decide)).2.2.1⟩

/-- The `taskSchema.pre('save')` middleware from `Models/task.js`: on save it
syncs `isCompleted`/`completedAt` with `status`.  Mongoose runs it for
`Task.create` / `document.save()` only — not for `findByIdAndUpdate` or
`updateMany`. -/
def preSaveHook (now : Int) (t : Task) : Task :=
  if t.status == .completed && !t.isCompleted then
    { t with isCompleted := true, completedAt := some now }
  else if !(t.status == .completed) && t.isCompleted then
    { t with isCompleted := false, completedAt := none }
  else t

/-- The fields `validateTaskUpdate` (in `Utils/validation.js`) lets through
to `findByIdAndUpdate` / `updateMany`; `none` means the field is absent from
the request body. -/
structure TaskUpdate where
  title : Option String := none
  description : Option String := none
  status : Option Status := none
  priority : Option Priority := none
  dueDate : Option (Option Int) := none
  tags : Option (List String) := none
deriving DecidableEq

/-- The 500 body the global `errorHandler` sends for the `ReferenceError`
thrown inside the task controller: the controller module of
`Controller/taskController.js` requires only `Task` and `CustomError`, yet
calls `validateTaskUpdate(...)`, which is therefore not defined at call
time.  The thrown `ReferenceError` matches no named branch of the handler
(not `CastError`, not `ValidationError`, ...), so it falls through to
`statusCode 500` with the error's own message. -/
def validateTaskUpdateRefError : TaskResponse :=
  { status := 500, success := false,
    message := "validateTaskUpdate is not defined", task := none }

/-- `updateTask` from `Controller/taskController.js`.  Its first statement
is `const { error } = validateTaskUpdate(req.body)`, but `validateTaskUpdate`
is never imported into this module, so every call throws `ReferenceError`
before the `findOne` / `findByIdAndUpdate` calls are reached; the `catch`
tests `err.name === 'CastError'` (false for a `ReferenceError`) and passes
the error to the 500-producing `errorHandler`.  The store is never
touched. -/
def updateTask (_uid _idq : Nat) (_u : TaskUpdate) (db : List Task) :
    TaskResponse × List Task :=
  (validateTaskUpdateRefError, db)

/-- A pending, not-completed task of identity 7 with id 3. -/
def pendingTask : Task :=
  { sampleTask with id := 3 }

/-- Request body of `POST /api/tasks` as spread by `createTask`: the
validated task fields plus whatever `user` value the client chose to send
(`none` when absent). -/
structure TaskCreateBody where
  title : String
  description : String := ""
  status : Status := .pending
  priority : Priority := .medium
  dueDate : Option Int := none
  tags : List String := []
  user : Option Nat := none
deriving DecidableEq

/-- The document literal `{ ...req.body }` before the `user:` entry is
added: a client-supplied `user` lands in the document (0 stands for the
absent/required-missing value). -/
def taskDocOfBody (newId : Nat) (now : Int) (b : TaskCreateBody) : Task :=
  { id := newId, title := b.title, description := b.description,
    status := b.status, priority := b.priority, dueDate := b.dueDate,
    tags := b.tags, isCompleted := false, completedAt := none,
    user := b.user.getD 0, isDeleted := false, deletedAt := none,
    createdAt := now, updatedAt := now }

/-- The later `user: req.user.id` entry of the object literal, which wins
over any spread-in `user`. -/
def withUser (uid : Nat) (t : Task) : Task :=
  { t with user := uid }

/-- `createTask` from `Controller/taskController.js`:
`Task.create({ ...req.body, user: req.user.id })`; `create` saves the
document, running the `pre('save')` completion hook.  Returns the new store
and the created document. -/
def createTask (uid newId : Nat) (now : Int) (b : TaskCreateBody)
    (db : List Task) : List Task × Task :=
  let doc := preSaveHook now (withUser uid (taskDocOfBody newId now b))
  (db ++ [doc], doc)

/-- Request body of `POST /api/tags` as spread by `createTag`. -/
structure TagCreateBody where
  name : String
  color : String := "#007bff"
  description : String := ""
  user : Option Nat := none
deriving DecidableEq

/-- The document literal `{ ...req.body }` for a tag. -/
def tagDocOfBody (newId : Nat) (now : Int) (b : TagCreateBody) : Tag :=
  { id := newId, name := b.name, color := b.color,
    description := b.description, user := b.user.getD 0, isDeleted := false,
    deletedAt := none, usageCount := 0, createdAt := now, updatedAt := now }

/-- The later `user: req.user.id` entry for a tag document. -/
def withTagUser (uid : Nat) (g : Tag) : Tag :=
  { g with user := uid }

/-- `createTag` from `Controller/tagController.js`:
`Tag.create({ ...req.body, user: req.user.id })`. -/
def createTag (uid newId : Nat) (now : Int) (b : TagCreateBody)
    (db : List Tag) : List Tag × Tag :=
  let doc := withTagUser uid (tagDocOfBody newId now b)
  (db ++ [doc], doc)

theorem preSaveHook_user (now : Int) (t : Task) :
    (preSaveHook now t).user = t.user := by
  unfold preSaveHook
  split_ifs <;> rfl

/-- C10: every task and tag created on behalf of an authenticated identity
is stored with that identity as owner, whatever `user` value the request
body carried, because the controller's object literal overwrites the spread
body's `user` with `req.user.id`. -/
theorem create_owner_equals_authenticated :
    (∀ (uid newId : Nat) (now : Int) (b : TaskCreateBody) (db : List Task),
        ((createTask uid newId now b db).2).user = uid
        ∧ (createTask uid newId now b db).2 ∈ (createTask uid newId now b db).1)
    ∧ (∀ (uid newId : Nat) (now : Int) (b : TagCreateBody) (db : List Tag),
        ((createTag uid newId now b db).2).user = uid
        ∧ (createTag uid newId now b db).2 ∈ (createTag uid newId now b db).1) := by
  constructor
  · intro uid newId now b db
    refine ⟨?_, by simp [createTask]⟩
    show (preSaveHook now (withUser uid (taskDocOfBody newId now b))).user = uid
    rw [preSaveHook_user]
    rfl
  · intro uid newId now b db
    exact ⟨rfl, by simp [createTag]⟩

/-- The purge inside `createRateLimiter`'s middleware
(`Middleware/authMiddleware.js`): keep the recorded timestamps with
`time > now - windowMs`. -/
def rlPurge (windowMs now : Int) (st : List Int) : List Int :=
  st.filter (fun time => now - windowMs < time)

/-- The 429 body sent on denial, with `retryAfter: Math.ceil(windowMs /
1000)` (for `windowMs ≥ 0` the rounded-up quotient is `(windowMs + 999) /
1000`). -/
structure RateLimitResponse where
  status : Nat
  success : Bool
  message : String
  retryAfter : Int
deriving DecidableEq

/-- The denial response of the rate limiter. -/
def rateLimited (windowMs : Int) : RateLimitResponse :=
  { status := 429, success := false,
    message := "Too many requests. Please try again later",
    retryAfter := (windowMs + 999) / 1000 }

/-- One middleware call of `createRateLimiter(windowMs, max)` for one
identifier, acting on that identifier's recorded timestamps: purge entries
at or before `now - windowMs`, deny with 429 when `max` remain, else record
`now` (push at the end) and admit.  Returns the optional denial response and
the identifier's new recorded list. -/
def rateLimitStep (windowMs : Int) (max : Nat) (now : Int) (st : List Int) :
    Option RateLimitResponse × List Int :=
  let purged := rlPurge windowMs now st
  if max ≤ purged.length then (some (rateLimited windowMs), purged)
  else (none, purged ++ [now])

/-- A sequence of middleware calls at the given times; `true` flags an
admitted request. -/
def rateLimitRun (windowMs : Int) (max : Nat) (st : List Int) :
    List Int → List Bool × List Int
  | [] => ([], st)
  | t :: ts =>
      ((rateLimitStep windowMs max t st).1.isNone ::
          (rateLimitRun windowMs max (rateLimitStep windowMs max t st).2 ts).1,
        (rateLimitRun windowMs max (rateLimitStep windowMs max t st).2 ts).2)

theorem rateLimitRun_all_accept (W : Int) (max : Nat) :
    ∀ (ts st : List Int),
      st.length + ts.length ≤ max →
      (∀ b ∈ ts, ∀ a ∈ st, b - W < a) →
      (∀ a ∈ ts, ∀ b ∈ ts, a - W < b) →
      (rateLimitRun W max st ts).1 = List.replicate ts.length true
      ∧ (rateLimitRun W max st ts).2 = st ++ ts := by
  intro ts
  induction ts with
  | nil =>
      intro st _ _ _
      simp [rateLimitRun]
  | cons t rest ih =>
      intro st hlen hst hts
      have hpurge : rlPurge W t st = st := by
        apply List.filter_eq_self.mpr
        intro a ha
        simpa using hst t (List.mem_cons_self t rest) a ha
      have hlen' : st.length + (rest.length + 1) ≤ max := by
        simpa using hlen
      have hlt : st.length < max := by omega
      have hstep : rateLimitStep W max t st = (none, st ++ [t]) := by
        simp [rateLimitStep, hpurge, Nat.not_le.mpr hlt]
      have hstlen : (st ++ [t]).length = st.length + 1 := by simp
      have hst2 : ∀ b ∈ rest, ∀ a ∈ st ++ [t], b - W < a := by
        intro b hb a ha
        rcases List.mem_append.mp ha with h | h
        · exact hst b (List.mem_cons_of_mem t hb) a h
        · have ha' : a = t := by simpa using h
          rw [ha']
          exact hts b (List.mem_cons_of_mem t hb) t (List.mem_cons_self t rest)
      have hts2 : ∀ a ∈ rest, ∀ b ∈ rest, a - W < b := by
        intro a ha b hb
        exact hts a (List.mem_cons_of_mem t ha) b (List.mem_cons_of_mem t hb)
      have ih2 := ih (st ++ [t]) (by rw [hstlen]; omega) hst2 hts2
      constructor
      · simp only [rateLimitRun, hstep, List.length_cons, List.replicate_succ]
        simp [ih2.1]
      · simp only [rateLimitRun, hstep]
        simp only [ih2.2]
        simp

theorem rateLimitRun_append (W : Int) (max : Nat) :
    ∀ (xs ys st : List Int),
      rateLimitRun W max st (xs ++ ys) =
        ((rateLimitRun W max st xs).1 ++
            (rateLimitRun W max (rateLimitRun W max st xs).2 ys).1,
          (rateLimitRun W max (rateLimitRun W max st xs).2 ys).2) := by
  intro xs
  induction xs with
  | nil =>
      intro ys st
      simp [rateLimitRun]
  | cons x rest ih =>
      intro ys st
      simp only [List.cons_append, rateLimitRun, List.append_eq, ih]

/-- C4: the sliding-window rate limiter.  (i) a call purges the timestamps
at or before `now - windowMs`, admits iff the remaining count is strictly
below `max`, and appends `now` only on admission; (ii) `max` requests
falling inside one window all succeed; (iii) a further request inside the
same window is denied with the 429 response whose retry-after is positive,
and the denial leaves the recorded window unchanged; (iv) purging is
idempotent, so a denial never alters the in-window recorded timestamps;
(v) once the whole window has elapsed, requests succeed again. -/
theorem rateLimiter_sliding_window :
    (∀ (W : Int) (max : Nat) (now : Int) (st : List Int),
        ((rateLimitStep W max now st).1 = none ↔ (rlPurge W now st).length < max)
        ∧ (rateLimitStep W max now st).2 =
            (if (rlPurge W now st).length < max
             then rlPurge W now st ++ [now] else rlPurge W now st))
    ∧ (∀ (W : Int) (max : Nat) (ts : List Int),
        ts.length ≤ max →
        (∀ a ∈ ts, ∀ b ∈ ts, a - W < b) →
        (rateLimitRun W max [] ts).1 = List.replicate ts.length true
        ∧ (rateLimitRun W max [] ts).2 = ts)
    ∧ (∀ (W : Int) (max : Nat) (now : Int) (ts : List Int),
        0 < W → ts.length = max →
        (∀ a ∈ ts, ∀ b ∈ ts, a - W < b) →
        (∀ a ∈ ts, now - W < a) →
        (rateLimitRun W max [] (ts ++ [now])).1
            = List.replicate max true ++ [false]
        ∧ rateLimitStep W max now ts = (some (rateLimited W), ts)
        ∧ (rateLimited W).status = 429
        ∧ 0 < (rateLimited W).retryAfter)
    ∧ (∀ (W now : Int) (st : List Int),
        rlPurge W now (rlPurge W now st) = rlPurge W now st)
    ∧ (∀ (W : Int) (max : Nat) (now : Int) (st : List Int),
        0 < max → (∀ a ∈ st, a ≤ now - W) →
        (rateLimitStep W max now st).1 = none
        ∧ (rateLimitStep W max now st).2 = [now]) := by
  refine ⟨?_, ?_, ?_, ?_, ?_⟩
  · intro W max now st
    constructor
    · constructor
      · intro h
        by_contra hc
        have hge : max ≤ (rlPurge W now st).length := Nat.le_of_not_lt hc
        simp [rateLimitStep, hge] at h
      · intro h
        simp [rateLimitStep, Nat.not_le.mpr h]
    · by_cases h : (rlPurge W now st).length < max
      · simp [rateLimitStep, Nat.not_le.mpr h, h]
      · simp [rateLimitStep, Nat.le_of_not_lt h, h]
  · intro W max ts hlen hts
    have h := rateLimitRun_all_accept W max ts []
      (by simpa using hlen) (by intro b _ a ha; simp at ha) hts
    exact ⟨h.1, by simpa using h.2⟩
  · intro W max now ts hW hlen hts hnow
    have hrun := rateLimitRun_all_accept W max ts []
      (by simp [hlen]) (by intro b _ a ha; simp at ha) hts
    have hpurge : rlPurge W now ts = ts := by
      apply List.filter_eq_self.mpr
      intro a ha
      simpa using hnow a ha
    have hstep : rateLimitStep W max now ts = (some (rateLimited W), ts) := by
      simp [rateLimitStep, hpurge, hlen.ge]
    refine ⟨?_, hstep, rfl, ?_⟩
    · rw [rateLimitRun_append]
      rw [hrun.1, hrun.2.trans (List.nil_append ts)]
      simp [rateLimitRun, hstep, hlen]
    · show 0 < (W + 999) / 1000
      omega
  · intro W now st
    apply List.filter_eq_self.mpr
    intro a ha
    simp only [rlPurge] at ha
    exact (List.mem_filter.mp ha).2
  · intro W max now st hmax hold
    have hpurge : rlPurge W now st = [] := by
      simp only [rlPurge]
      rw [List.filter_eq_nil_iff]
      intro a ha
      have := hold a ha
      simp only [decide_eq_true_eq]
      omega
    have hne : ¬ max = 0 := by omega
    constructor
    · simp [rateLimitStep, hpurge, hne]
    · simp [rateLimitStep, hpurge, hne]

/-- Witness for C4: with a 1000 ms window and `max = 2`, the calls at times
0 and 1 are admitted, the third call at time 2 is denied with the 429
retry-after response and the recorded window `[0, 1]` unchanged, and a call
at time 1001 (window elapsed) is admitted. -/
theorem rateLimiter_sliding_window_witness :
    ((rateLimitRun 1000 2 [] [0, 1]).1 = List.replicate 2 true
      ∧ (rateLimitRun 1000 2 [] [0, 1]).2 = [0, 1])
    ∧ ((rateLimitRun 1000 2 [] ([0, 1] ++ [2])).1
          = List.replicate 2 true ++ [false]
      ∧ rateLimitStep 1000 2 2 [0, 1] = (some (rateLimited 1000), [0, 1])
      ∧ (rateLimited 1000).status = 429
      ∧ 0 < (rateLimited 1000).retryAfter)
    ∧ ((rateLimitStep 1000 2 1001 [0, 1]).1 = none
      ∧ (rateLimitStep 1000 2 1001 [0, 1]).2 = [1001]) :=
  ⟨rateLimiter_sliding_window.2.1 1000 2 [0, 1] (by decide) (by decide),
   rateLimiter_sliding_window.2.2.1 1000 2 2 [0, 1] (by decide) (by decide)
     (by decide) (by decide),
   rateLimiter_sliding_window.2.2.2.2 1000 2 1001 [0, 1] (by decide) (by decide)⟩

/-- A signed session token as far as `jsonwebtoken` is observable here: the
payload (`id`, the user id), the expiry instant (epoch ms), and the secret
that produced the signature (`sig = secret` models a genuine signature;
`sig ≠ secret` a tampered or never-issued token). -/
structure Jwt where
  uid : Nat
  exp : Int
  sig : Nat
deriving DecidableEq

/-- The two verification failures `jwt.verify` can throw that `protect`
distinguishes: `TokenExpiredError` and `JsonWebTokenError`. -/
inductive JwtError where
  | tokenExpiredError
  | jsonWebTokenError
deriving DecidableEq

/-- `jwt.verify(token, secret)`: signature check first (a bad signature is a
`JsonWebTokenError`), then expiry. -/
def jwtVerify (secret : Nat) (now : Int) (tok : Jwt) : Except JwtError Nat :=
  if tok.sig != secret then .error .jsonWebTokenError
  else if tok.exp ≤ now then .error .tokenExpiredError
  else .ok tok.uid

/-- Outcome of the `protect` middleware: the HTTP error it sends, or the
authenticated user attached to the request on success. -/
structure AuthResult where
  status : Nat
  success : Bool
  message : String
  authedUser : Option Nat
deriving DecidableEq

/-- The `protect` middleware of `Middleware/authMiddleware.js`: missing
token → 401; blacklisted token → 401 "Token has been invalidated. Please
login again"; then `jwt.verify`, mapping `TokenExpiredError` and
`JsonWebTokenError` to their distinct 401 messages; then the user lookup.
(The `user.isActive === false` branch can never fire — the user schema has
no `isActive` field and `undefined === false` is false — so it is absent
here.) -/
def protect (blacklist : List Jwt) (secret : Nat) (now : Int)
    (users : List Nat) (token : Option Jwt) : AuthResult :=
  match token with
  | none =>
      { status := 401, success := false,
        message := "Access denied. No token provided", authedUser := none }
  | some tok =>
      if blacklist.contains tok then
        { status := 401, success := false,
          message := "Token has been invalidated. Please login again",
          authedUser := none }
      else
        match jwtVerify secret now tok with
        | .error .tokenExpiredError =>
            { status := 401, success := false,
              message := "Token has expired. Please login again",
              authedUser := none }
        | .error .jsonWebTokenError =>
            { status := 401, success := false,
              message := "Invalid token format", authedUser := none }
        | .ok uid =>
            if users.contains uid then
              { status := 200, success := true, message := "",
                authedUser := some uid }
            else
              { status := 401, success := false,
                message := "Token is valid but user no longer exists",
                authedUser := none }

/-- `logout` (`Controller/authController.js`) calls
`blacklistToken(req.token)`, which does `tokenBlacklist.add(token)`. -/
def logout (blacklist : List Jwt) (tok : Jwt) : List Jwt :=
  tok :: blacklist

/-- C5: token verification rejects all three failure kinds with distinct
messages: a token revoked via `logout` is rejected as revoked by any
subsequent `protect` call; a tampered / never-issued token (signature not
made with the server secret) is rejected as malformed; an expired,
well-formed, unrevoked token is rejected as expired; and the three
rejection messages are pairwise distinct. -/
theorem protect_three_failure_kinds :
    (∀ (bl : List Jwt) (secret : Nat) (now : Int) (users : List Nat) (tok : Jwt),
        protect (logout bl tok) secret now users (some tok)
          = { status := 401, success := false,
              message := "Token has been invalidated. Please login again",
              authedUser := none })
    ∧ (∀ (bl : List Jwt) (secret : Nat) (now : Int) (users : List Nat) (tok : Jwt),
        tok ∉ bl → tok.sig ≠ secret →
        protect bl secret now users (some tok)
          = { status := 401, success := false,
              message := "Invalid token format", authedUser := none })
    ∧ (∀ (bl : List Jwt) (secret : Nat) (now : Int) (users : List Nat) (tok : Jwt),
        tok ∉ bl → tok.sig = secret → tok.exp ≤ now →
        protect bl secret now users (some tok)
          = { status := 401, success := false,
              message := "Token has expired. Please login again",
              authedUser := none })
    ∧ (("Token has been invalidated. Please login again" : String)
          ≠ "Invalid token format"
      ∧ ("Token has been invalidated. Please login again" : String)
          ≠ "Token has expired. Please login again"
      ∧ ("Invalid token format" : String)
          ≠ "Token has expired. Please login again") := by
  refine ⟨?_, ?_, ?_, by decide⟩
  · intro bl secret now users tok
    have hm : tok ∈ logout bl tok := List.mem_cons_self tok bl
    simp [protect, hm]
  · intro bl secret now users tok hnotin hsig
    have hv : jwtVerify secret now tok = .error .jsonWebTokenError := by
      simp [jwtVerify, bne_iff_ne, hsig]
    simp [protect, hnotin, hv]
  · intro bl secret now users tok hnotin hsig hexp
    have hv : jwtVerify secret now tok = .error .tokenExpiredError := by
      simp [jwtVerify, hsig, hexp]
    simp [protect, hnotin, hv]

/-- A token genuinely signed with secret 42 for user 1, expiring at 100. -/
def issuedTok : Jwt := { uid := 1, exp := 100, sig := 42 }

/-- A tampered token: same payload, signature not made with secret 42. -/
def tamperedTok : Jwt := { uid := 1, exp := 100, sig := 13 }

/-- Witness for C5: against secret 42 and user store `[1]`, the logged-out
`issuedTok` is rejected as revoked, `tamperedTok` as malformed, and
`issuedTok` at time 100 as expired. -/
theorem protect_three_failure_kinds_witness :
    protect (logout [] issuedTok) 42 0 [1] (some issuedTok)
      = { status := 401, success := false,
          message := "Token has been invalidated. Please login again",
          authedUser := none }
    ∧ protect [] 42 0 [1] (some tamperedTok)
      = { status := 401, success := false,
          message := "Invalid token format", authedUser := none }
    ∧ protect [] 42 100 [1] (some issuedTok)
      = { status := 401, success := false,
          message := "Token has expired. Please login again",
          authedUser := none } :=
  ⟨protect_three_failure_kinds.1 [] 42 0 [1] issuedTok,
   protect_three_failure_kinds.2.1 [] 42 0 [1] tamperedTok (by decide) (by decide),
   protect_three_failure_kinds.2.2.1 [] 42 100 [1] issuedTok (by decide)
     (by decide) (by decide)⟩

/-- 24 hours in milliseconds, the fixed `setTimeout` delay in
`blacklistToken`. -/
def dayMs : Int := 24 * 60 * 60 * 1000

/-- Whether the one-shot cleanup scheduled by `blacklistToken` at
`addTime + dayMs` deletes the entry: it deletes iff
`decoded.exp * 1000 < Date.now()` holds at that moment, i.e. iff the token
has already expired when the 24-hour timer fires.  (The `catch` branch that
deletes a malformed token cannot fire for a decodable token.) -/
def blacklistCleanupRemoves (addTime : Int) (tok : Jwt) : Bool :=
  tok.exp < addTime + dayMs

/-- Membership of a token in the revocation set at time `t`, after
`blacklistToken` added it at `addTime`: present until the single cleanup at
`addTime + dayMs`, then present iff the cleanup did not delete it (nothing
else ever removes it). -/
def blacklistMemberAt (addTime : Int) (tok : Jwt) (t : Int) : Bool :=
  if t < addTime + dayMs then true
  else !blacklistCleanupRemoves addTime tok

/-- A token whose natural expiry is 30 days after it was blacklisted (the
repository's own `.env` example uses `JWT_EXPIRE=30d`). -/
def longLivedTok : Jwt := { uid := 1, exp := 30 * dayMs, sig := 42 }

/-- Counterexample to C6 as stated: a token blacklisted at time 0 with
natural expiry 30 days later is still in the revocation set at its expiry
instant, and still a day after that — its entry is never removed at or
before the moment the token expires, since the only scheduled removal runs
at the fixed 24-hour mark and then declines to delete a not-yet-expired
token. -/
theorem blacklist_entry_outlives_expiry :
    longLivedTok.exp ≤ 30 * dayMs
    ∧ blacklistMemberAt 0 longLivedTok (30 * dayMs) = true
    ∧ blacklistMemberAt 0 longLivedTok (31 * dayMs) = true := by decide

/-- C6 amended: `blacklistToken` adds the token and schedules one cleanup a
fixed 24 hours later which removes the entry only if the token has by then
expired.  Hence (i) an entry is never removed strictly before its token
expires; (ii) a token with 24 hours or more of remaining life when
blacklisted is never removed at all (so the set's growth is not bounded by
the number of unexpired revoked tokens); (iii) a token expiring within the
24 hours is removed at the 24-hour mark (which is after its expiry);
(iv) every entry is present up to the 24-hour mark. -/
theorem blacklistToken_cleanup_behavior :
    (∀ (addTime : Int) (tok : Jwt) (t : Int),
        t < tok.exp → blacklistMemberAt addTime tok t = true)
    ∧ (∀ (addTime : Int) (tok : Jwt),
        addTime + dayMs ≤ tok.exp →
        ∀ t : Int, blacklistMemberAt addTime tok t = true)
    ∧ (∀ (addTime : Int) (tok : Jwt),
        tok.exp < addTime + dayMs →
        ∀ t : Int, addTime + dayMs ≤ t → blacklistMemberAt addTime tok t = false)
    ∧ (∀ (addTime : Int) (tok : Jwt) (t : Int),
        t < addTime + dayMs → blacklistMemberAt addTime tok t = true) := by
  refine ⟨?_, ?_, ?_, ?_⟩
  · intro addTime tok t ht
    by_cases h : t < addTime + dayMs
    · simp [blacklistMemberAt, h]
    · have hlate : addTime + dayMs ≤ t := by omega
      have hno : blacklistCleanupRemoves addTime tok = false := by
        simp only [blacklistCleanupRemoves, decide_eq_false_iff_not]
        omega
      simp [blacklistMemberAt, h, hno]
  · intro addTime tok hlife t
    by_cases h : t < addTime + dayMs
    · simp [blacklistMemberAt, h]
    · have hno : blacklistCleanupRemoves addTime tok = false := by
        simp only [blacklistCleanupRemoves, decide_eq_false_iff_not]
        omega
      simp [blacklistMemberAt, h, hno]
  · intro addTime tok hexp t ht
    have h : ¬ t < addTime + dayMs := by omega
    have hyes : blacklistCleanupRemoves addTime tok = true := by
      simp only [blacklistCleanupRemoves, decide_eq_true_eq]
      omega
    simp [blacklistMemberAt, h, hyes]
  · intro addTime tok t ht
    simp [blacklistMemberAt, ht]

/-- A token that expires 1000 ms after being blacklisted at time 0. -/
def shortLivedTok : Jwt := { uid := 1, exp := 1000, sig := 42 }

/-- Witness for the amended C6: the long-lived token stays in the set at an
arbitrary later time; the short-lived token is present before the 24-hour
mark and gone at it; every entry is present just after being added. -/
theorem blacklistToken_cleanup_behavior_witness :
    blacklistMemberAt 0 longLivedTok (100 * dayMs) = true
    ∧ blacklistMemberAt 0 shortLivedTok 500 = true
    ∧ blacklistMemberAt 0 shortLivedTok dayMs = false
    ∧ blacklistMemberAt 0 longLivedTok 1 = true :=
  ⟨blacklistToken_cleanup_behavior.2.1 0 longLivedTok (by decide) (100 * dayMs),
   blacklistToken_cleanup_behavior.1 0 shortLivedTok 500 (by decide),
   blacklistToken_cleanup_behavior.2.2.1 0 shortLivedTok (by decide) dayMs
     (by decide),
   blacklistToken_cleanup_behavior.2.2.2 0 longLivedTok 1 (by decide)⟩

/-- The reference count taken by `deleteTag`:
`Task.countDocuments({ user, tags: tag.name, isDeleted: { $ne: true } })` —
the owner's non-deleted tasks whose tag list contains the tag's name
(`countDocuments` does not run the `pre(/^find/)` hook, but the filter
already excludes deleted tasks explicitly). -/
def tasksUsingTag (uid : Nat) (name : String) (tasks : List Task) : Nat :=
  (tasks.filter (fun t =>
    t.user == uid && t.tags.contains name && !t.isDeleted)).length

/-- `Tag.findByIdAndUpdate(id, { isDeleted: true, deletedAt })`; the tag
schema's `pre(/^find/)` hook restricts the match to non-deleted tags. -/
def softDeleteTag (tagId : Nat) (now : Int) (tags : List Tag) : List Tag :=
  tags.map (fun g =>
    if g.id == tagId && !g.isDeleted then
      { g with isDeleted := true, deletedAt := some now }
    else g)

/-- `Task.updateMany({ user, tags: tag.name }, { $pull: { tags: tag.name } })`
— note `updateMany` gets no soft-delete hook and the filter has no
`isDeleted` clause, so the pull touches deleted tasks too. -/
def pullTagFromTasks (uid : Nat) (name : String) (tasks : List Task) : List Task :=
  tasks.map (fun t =>
    if t.user == uid && t.tags.contains name then
      { t with tags := t.tags.filter (fun s => !(s == name)) }
    else t)

/-- Response shape of `DELETE /api/tags/:id`. -/
structure TagDeleteResponse where
  status : Nat
  success : Bool
  message : String
  tasksCount : Option Nat
  removedFromTasks : Option Nat
deriving DecidableEq

/-- The predicate of `deleteTag`'s `findOne({ _id, user })` (plus the
soft-delete hook). -/
def tagOwnedPred (uid idq : Nat) (g : Tag) : Bool :=
  g.id == idq && g.user == uid && !g.isDeleted

/-- `deleteTag` from `Controller/tagController.js`: find the owned tag,
count referencing non-deleted tasks, refuse with the count when in use and
no `force` flag, otherwise soft-delete the tag and — when forced and in use
— pull the name from the owner's tasks, reporting
`removedFromTasks: force ? tasksUsingTag : 0`. -/
def deleteTag (uid tagId : Nat) (force : Bool) (now : Int)
    (tags : List Tag) (tasks : List Task) :
    TagDeleteResponse × List Tag × List Task :=
  match tags.find? (tagOwnedPred uid tagId) with
  | none =>
      ({ status := 404, success := false, message := "Tag not found",
         tasksCount := none, removedFromTasks := none }, tags, tasks)
  | some g =>
      let cnt := tasksUsingTag uid g.name tasks
      if 0 < cnt && !force then
        ({ status := 400, success := false,
           message := s!"Tag is being used in {cnt} task(s). Use force=true to delete anyway.",
           tasksCount := some cnt, removedFromTasks := none }, tags, tasks)
      else
        ({ status := 200, success := true, message := "Tag deleted successfully",
           tasksCount := none,
           removedFromTasks := some (if force then cnt else 0) },
         softDeleteTag tagId now tags,
         if force && decide (0 < cnt) then pullTagFromTasks uid g.name tasks
         else tasks)

theorem pullTagFromTasks_removes (uid : Nat) (name : String) (tasks : List Task) :
    ∀ t ∈ pullTagFromTasks uid name tasks, t.user = uid → name ∉ t.tags := by
  intro t ht htu
  rcases List.mem_map.mp ht with ⟨s, hs, hfs⟩
  by_cases hc : (s.user == uid && s.tags.contains name) = true
  · rw [← hfs]
    simp only [hc, if_true]
    intro hmem
    have := (List.mem_filter.mp hmem).2
    simp at this
  · rw [← hfs] at htu ⊢
    simp only [hc, if_false] at htu ⊢
    intro hmem
    apply hc
    simp only [Bool.and_eq_true, beq_iff_eq]
    exact ⟨htu, by simpa using hmem⟩

theorem tasksUsingTag_zero_no_ref (uid : Nat) (name : String) (tasks : List Task) :
    tasksUsingTag uid name tasks = 0 →
    ∀ t ∈ tasks, t.user = uid → t.isDeleted = false → name ∉ t.tags := by
  intro h0 t ht htu htd hmem
  have hfil : t ∈ tasks.filter (fun t =>
      t.user == uid && t.tags.contains name && !t.isDeleted) :=
    List.mem_filter.mpr ⟨ht, by simp [htu, htd, hmem]⟩
  simp only [tasksUsingTag] at h0
  rw [List.length_eq_zero] at h0
  rw [h0] at hfil
  exact absurd hfil (List.not_mem_nil t)

/-- C7: tag deletion.  Without `force`, while the tag's name is referenced
by at least one of the owner's non-deleted tasks, the request is refused
(400), the stores are untouched, and the response carries the referencing
count.  With `force`, the tag is soft-deleted, the response's affected-task
count equals the pre-deletion count of the owner's non-deleted referencing
tasks, and afterwards no non-deleted task of the owner still carries the
tag's name. -/
theorem deleteTag_reference_protection :
    (∀ (uid tagId : Nat) (now : Int) (tags : List Tag) (tasks : List Task) (g : Tag),
        tags.find? (tagOwnedPred uid tagId) = some g →
        0 < tasksUsingTag uid g.name tasks →
        (deleteTag uid tagId false now tags tasks).1.status = 400
        ∧ (deleteTag uid tagId false now tags tasks).1.tasksCount
            = some (tasksUsingTag uid g.name tasks)
        ∧ (deleteTag uid tagId false now tags tasks).2.1 = tags
        ∧ (deleteTag uid tagId false now tags tasks).2.2 = tasks)
    ∧ (∀ (uid tagId : Nat) (now : Int) (tags : List Tag) (tasks : List Task) (g : Tag),
        tags.find? (tagOwnedPred uid tagId) = some g →
        (deleteTag uid tagId true now tags tasks).1.status = 200
        ∧ (deleteTag uid tagId true now tags tasks).1.removedFromTasks
            = some (tasksUsingTag uid g.name tasks)
        ∧ { g with isDeleted := true, deletedAt := some now }
            ∈ (deleteTag uid tagId true now tags tasks).2.1
        ∧ (∀ t ∈ (deleteTag uid tagId true now tags tasks).2.2,
            t.user = uid → t.isDeleted = false → g.name ∉ t.tags)) := by
  constructor
  · intro uid tagId now tags tasks g hfind hcnt
    simp only [deleteTag, hfind, hcnt, decide_true_eq_true, decide_eq_true_eq]
    simp [hcnt]
  · intro uid tagId now tags tasks g hfind
    have hprops := List.find?_some hfind
    have hmem := List.mem_of_find?_eq_some hfind
    simp only [tagOwnedPred, Bool.and_eq_true] at hprops
    have hcond : (g.id == tagId && !g.isDeleted) = true := by
      simp only [Bool.and_eq_true]
      exact ⟨hprops.1.1, hprops.2⟩
    have hexp : deleteTag uid tagId true now tags tasks
        = ({ status := 200, success := true,
             message := "Tag deleted successfully", tasksCount := none,
             removedFromTasks := some (tasksUsingTag uid g.name tasks) },
           softDeleteTag tagId now tags,
           if decide (0 < tasksUsingTag uid g.name tasks)
           then pullTagFromTasks uid g.name tasks else tasks) := by
      simp [deleteTag, hfind]
    refine ⟨by rw [hexp], by rw [hexp], ?_, ?_⟩
    · rw [hexp]
      show _ ∈ softDeleteTag tagId now tags
      have : ({ g with isDeleted := true, deletedAt := some now } : Tag)
          = (if g.id == tagId && !g.isDeleted then
              { g with isDeleted := true, deletedAt := some now } else g) := by
        rw [hcond]
        simp
      rw [this]
      exact List.mem_map_of_mem _ hmem
    · rw [hexp]
      by_cases hcnt : 0 < tasksUsingTag uid g.name tasks
      · simp only [hcnt, decide_true_eq_true, if_true]
        intro t ht htu _
        exact pullTagFromTasks_removes uid g.name tasks t ht htu
      · have h0 : tasksUsingTag uid g.name tasks = 0 := by omega
        simp only [hcnt, decide_false_eq_false, if_false]
        intro t ht htu htd
        exact tasksUsingTag_zero_no_ref uid g.name tasks h0 t ht htu htd

/-- The owner's tag to be deleted in the witness scenario. -/
def witTag : Tag := { sampleTag with id := 2 }

/-- The owner's task referencing the tag name "work". -/
def witTask : Task := { sampleTask with id := 9, tags := ["work", "home"] }

/-- Witness for C7: with one non-deleted referencing task, deletion without
force is refused reporting count 1 and changes nothing; with force it
succeeds reporting 1 affected task, the tag is soft-deleted, and the task
left in the store (membership shown concretely) no longer carries "work". -/
theorem deleteTag_reference_protection_witness :
    ((deleteTag 7 2 false 50 [witTag] [witTask]).1.status = 400
      ∧ (deleteTag 7 2 false 50 [witTag] [witTask]).1.tasksCount = some 1
      ∧ (deleteTag 7 2 false 50 [witTag] [witTask]).2.1 = [witTag]
      ∧ (deleteTag 7 2 false 50 [witTag] [witTask]).2.2 = [witTask])
    ∧ ((deleteTag 7 2 true 50 [witTag] [witTask]).1.status = 200
      ∧ (deleteTag 7 2 true 50 [witTag] [witTask]).1.removedFromTasks = some 1
      ∧ { witTag with isDeleted := true, deletedAt := some 50 }
          ∈ (deleteTag 7 2 true 50 [witTag] [witTask]).2.1
      ∧ ({ witTask with tags := ["home"] }
            ∈ (deleteTag 7 2 true 50 [witTag] [witTask]).2.2
        ∧ ("work" : String) ∉ ({ witTask with tags := ["home"] } : Task).tags)) := by
  constructor
  · have h := deleteTag_reference_protection.1 7 2 50 [witTag] [witTask] witTag
      (by decide) (by decide)
    exact ⟨h.1, h.2.1, h.2.2.1, h.2.2.2⟩
  · have h := deleteTag_reference_protection.2 7 2 50 [witTag] [witTask] witTag
      (by decide)
    refine ⟨h.1, h.2.1, h.2.2.1, by decide, ?_⟩
    exact h.2.2.2 { witTask with tags := ["home"] } (by decide) (by decide)
      (by decide)

/-- Whether the update body has no keys: the
`!updateData || Object.keys(updateData).length === 0` check of
`bulkUpdateTasks`. -/
def TaskUpdate.isEmpty (u : TaskUpdate) : Bool :=
  u.title.isNone && u.description.isNone && u.status.isNone
    && u.priority.isNone && u.dueDate.isNone && u.tags.isNone

/-- Response shape of `PATCH /api/tasks/bulk`; the counts are present only
in the 200 report that `res.json({ ... modifiedCount, matchedCount })`
would send. -/
structure BulkResponse where
  status : Nat
  success : Bool
  message : String
  matchedCount : Option Nat
  modifiedCount : Option Nat
deriving DecidableEq

/-- `bulkUpdateTasks` from `Controller/taskController.js`: it first rejects
a missing/empty `taskIds` array (400) and an empty `updateData` (400); its
next statement is `const { error } = validateTaskUpdate(updateData)`, and
`validateTaskUpdate` is never imported into this module, so the call throws
`ReferenceError`, the `catch` passes it to `next(err)`, and the
`errorHandler` answers 500 with the error's message.  `Task.updateMany` is
never reached and the store is never touched on any branch. -/
def bulkUpdateTasks (_uid : Nat) (ids : List Nat) (u : TaskUpdate)
    (db : List Task) : BulkResponse × List Task :=
  if ids.isEmpty then
    ({ status := 400, success := false,
       message := "Task IDs are required and must be an array",
       matchedCount := none, modifiedCount := none }, db)
  else if u.isEmpty then
    ({ status := 400, success := false, message := "Update data is required",
       matchedCount := none, modifiedCount := none }, db)
  else
    ({ status := 500, success := false,
       message := "validateTaskUpdate is not defined",
       matchedCount := none, modifiedCount := none }, db)

/-- C8 (failing input): identity 7's bulk update of the requested id list
`[1]` with the nonempty body `{ priority: "high" }`, over a store whose
task 1 is owned by 7 and non-deleted — so the claim's K is 1 and it demands
a success report with `matchedCount = 1`.  The handler instead throws
`ReferenceError` on the never-imported `validateTaskUpdate` before
`updateMany` runs, and the error handler answers 500 with that message and
no counts; the store is untouched.  (The repository's own
API_DOCUMENTATION.md and its `Utils/validation.js` — which defines and
exports `validateTaskUpdate` — show the claimed behavior is the intent and
the missing import a slip.) -/
theorem bulkUpdateTasks_crashes_before_updateMany :
    (bulkUpdateTasks 7 [1] { priority := some Priority.high } [sampleTask]).1
      = { status := 500, success := false,
          message := "validateTaskUpdate is not defined",
          matchedCount := none, modifiedCount := none }
    ∧ (bulkUpdateTasks 7 [1] { priority := some Priority.high } [sampleTask]).2
      = [sampleTask] := by
  exact ⟨rfl, rfl⟩

/-- C3: for every task, immediately after every create and every update
operation, `isCompleted = true` holds iff `status = "completed"`, and
`completedAt` is set exactly when `isCompleted` is true.  Creation runs the
`pre('save')` hook, which establishes the invariant on the stored document.
`updateTask` and `bulkUpdateTasks` throw `ReferenceError` on their call to
the never-imported `validateTaskUpdate` and answer 500 before reaching
`findByIdAndUpdate` / `updateMany`, so neither ever mutates a stored task,
and both therefore (vacuously) maintain the invariant on every task in the
store. -/
theorem completion_invariant_after_create_and_update :
    (∀ (uid newId : Nat) (now : Int) (b : TaskCreateBody) (db : List Task),
        ((createTask uid newId now b db).2.isCompleted = true
          ↔ (createTask uid newId now b db).2.status = Status.completed)
        ∧ ((createTask uid newId now b db).2.completedAt.isSome
          ↔ (createTask uid newId now b db).2.isCompleted = true))
    ∧ (∀ (uid idq : Nat) (u : TaskUpdate) (db : List Task),
        (updateTask uid idq u db).2 = db
        ∧ (updateTask uid idq u db).1.status = 500)
    ∧ (∀ (uid : Nat) (ids : List Nat) (u : TaskUpdate) (db : List Task),
        (bulkUpdateTasks uid ids u db).2 = db)
    ∧ (∀ (uid idq : Nat) (u : TaskUpdate) (db : List Task),
        (∀ t ∈ db, t.isCompleted = true ↔ t.status = Status.completed) →
        ∀ t ∈ (updateTask uid idq u db).2,
          t.isCompleted = true ↔ t.status = Status.completed)
    ∧ (∀ (uid : Nat) (ids : List Nat) (u : TaskUpdate) (db : List Task),
        (∀ t ∈ db, t.isCompleted = true ↔ t.status = Status.completed) →
        ∀ t ∈ (bulkUpdateTasks uid ids u db).2,
          t.isCompleted = true ↔ t.status = Status.completed) := by
  refine ⟨?_, ?_, ?_, ?_, ?_⟩
  · intro uid newId now b db
    cases hb : b.status <;>
      simp [createTask, preSaveHook, withUser, taskDocOfBody, hb]
  · intro uid idq u db
    exact ⟨rfl, rfl⟩
  · intro uid ids u db
    simp only [bulkUpdateTasks]
    split_ifs <;> rfl
  · intro uid idq u db h t ht
    exact h t ht
  · intro uid ids u db h t ht
    have hdb : (bulkUpdateTasks uid ids u db).2 = db := by
      simp only [bulkUpdateTasks]
      split_ifs <;> rfl
    rw [hdb] at ht
    exact h t ht

/-- Witness for C3: a task created with status "completed" comes out with
`isCompleted = true` and a set `completedAt`; the update and bulk-update
handlers leave the one-task store `[pendingTask]` unchanged (answering
500), and afterwards every stored task still satisfies the invariant. -/
theorem completion_invariant_after_create_and_update_witness :
    ((createTask 7 1 0 { title := "t", status := Status.completed } []).2.isCompleted = true
      ↔ (createTask 7 1 0 { title := "t", status := Status.completed } []).2.status
          = Status.completed)
    ∧ (updateTask 7 3 { status := some Status.completed } [pendingTask]).2
        = [pendingTask]
    ∧ (updateTask 7 3 { status := some Status.completed } [pendingTask]).1.status = 500
    ∧ (bulkUpdateTasks 7 [3] { status := some Status.completed } [pendingTask]).2
        = [pendingTask]
    ∧ (∀ t ∈ (updateTask 7 3 { status := some Status.completed } [pendingTask]).2,
        t.isCompleted = true ↔ t.status = Status.completed) :=
  ⟨(completion_invariant_after_create_and_update.1 7 1 0
      { title := "t", status := Status.completed } []).1,
   (completion_invariant_after_create_and_update.2.1 7 3
      { status := some Status.completed } [pendingTask]).1,
   (completion_invariant_after_create_and_update.2.1 7 3
      { status := some Status.completed } [pendingTask]).2,
   completion_invariant_after_create_and_update.2.2.1 7 [3]
      { status := some Status.completed } [pendingTask],
   completion_invariant_after_create_and_update.2.2.2.1 7 3
      { status := some Status.completed } [pendingTask] (by decide)⟩

/-- The reset-token fields of a user record touched by `forgotPassword`
(`Models/UserModel.js`). -/
structure UserRec where
  uid : Nat
  email : String
  resetPasswordToken : Option Nat
  resetPasswordExpire : Option Int
deriving DecidableEq

/-- The persisted-state / side-effect events of one `forgotPassword` run, in
program order. -/
inductive FPEvent where
  | savedResetToken
  | emailDispatchAttempt
  | savedClearedToken
deriving DecidableEq

/-- Response shape of `POST /api/auth/forgot-password`. -/
structure FPResponse where
  status : Nat
  success : Bool
  message : String
deriving DecidableEq

/-- `forgotPassword` from `Controller/authController.js`, for a found user:
`createPasswordResetToken` stores the token hash and `now + 3600000` expiry
on the record, which is saved; then the reset email dispatch is attempted;
if it throws, both fields are cleared, the record saved again, and a 500
error returned.  The hash function, the raw token, and whether the send
throws are parameters; the third component is the event trace. -/
def forgotPassword (hash : Nat → Nat) (rawTok : Nat) (now : Int)
    (emailThrows : Bool) (u : UserRec) : UserRec × FPResponse × List FPEvent :=
  let u1 := { u with resetPasswordToken := some (hash rawTok),
                     resetPasswordExpire := some (now + 3600000) }
  if emailThrows then
    ({ u1 with resetPasswordToken := none, resetPasswordExpire := none },
     { status := 500, success := false,
       message := "Email could not be sent. Please try again later." },
     [.savedResetToken, .emailDispatchAttempt, .savedClearedToken])
  else
    (u1,
     { status := 200, success := true,
       message := "Password reset email sent successfully" },
     [.savedResetToken, .emailDispatchAttempt])

/-- C9: the reset token persists on the user record exactly when the email
dispatch attempt did not throw.  When the send throws, the stored token
fields are rolled back to cleared, so a user who had no pending reset ends
exactly as if none had been requested, and the request fails with the 500
error; when the send succeeds, the token hash and expiry remain persisted
with a 200 response.  (In program order the save precedes the dispatch
attempt — the trace records this — and the rollback save follows a throw.) -/
theorem forgotPassword_rollback_on_email_failure :
    ∀ (hash : Nat → Nat) (rawTok : Nat) (now : Int) (u : UserRec),
      ((forgotPassword hash rawTok now true u).1.resetPasswordToken = none
        ∧ (forgotPassword hash rawTok now true u).1.resetPasswordExpire = none
        ∧ (forgotPassword hash rawTok now true u).2.1.status = 500
        ∧ (forgotPassword hash rawTok now true u).2.1.success = false
        ∧ (forgotPassword hash rawTok now true u).2.2
            = [.savedResetToken, .emailDispatchAttempt, .savedClearedToken])
      ∧ ((forgotPassword hash rawTok now false u).1.resetPasswordToken
            = some (hash rawTok)
        ∧ (forgotPassword hash rawTok now false u).1.resetPasswordExpire
            = some (now + 3600000)
        ∧ (forgotPassword hash rawTok now false u).2.1.status = 200
        ∧ (forgotPassword hash rawTok now false u).2.2
            = [.savedResetToken, .emailDispatchAttempt])
      ∧ (u.resetPasswordToken = none → u.resetPasswordExpire = none →
          (forgotPassword hash rawTok now true u).1 = u) := by
  intro hash rawTok now u
  refine ⟨⟨rfl, rfl, rfl, rfl, rfl⟩, ⟨rfl, rfl, rfl, rfl⟩, ?_⟩
  intro h1 h2
  simp only [forgotPassword, if_true]
  cases u
  simp_all

/-- A user record with no pending reset token. -/
def cleanUser : UserRec :=
  { uid := 7, email := "a@b.co", resetPasswordToken := none,
    resetPasswordExpire := none }

/-- Witness for C9: for the clean user, a failing dispatch leaves the record
equal to what it was, with the 500 response, and a succeeding dispatch
leaves the hashed token persisted. -/
theorem forgotPassword_rollback_on_email_failure_witness :
    (forgotPassword Nat.succ 5 0 true cleanUser).1 = cleanUser
    ∧ (forgotPassword Nat.succ 5 0 true cleanUser).2.1.status = 500
    ∧ (forgotPassword Nat.succ 5 0 false cleanUser).1.resetPasswordToken
        = some 6 :=
  ⟨(forgotPassword_rollback_on_email_failure Nat.succ 5 0 cleanUser).2.2
      (by decide) (by decide),
   (forgotPassword_rollback_on_email_failure Nat.succ 5 0 cleanUser).1.2.2.1,
   by decide⟩

end TaskManager
